import Mathlib

/-
Shallow embedding of the Preview Pipeline State Machine of roop's flet UI
(src/roop/ui_flet.py).  Paths, frames and face descriptors are opaque values
from the pipeline's point of view (the source never inspects their contents;
all real image/face work is done by collaborators), so they are represented by
natural-number handles.  Collaborators (FrameSource, FaceLocator, the content
predictor, the frame-processor modules, is_image / is_video) live outside the
reviewed file and are modelled as an explicit environment of oracle functions.
Every collaborator invocation, together with the display push and the
sys.exit call, is recorded in an event trace so that claims about which calls
occur can be stated and decided.
-/

namespace RoopUI

/-- Opaque media path handle (the pipeline only stores and forwards paths). -/
abbrev MediaPath := Nat

/-- Opaque decoded raster frame handle. -/
abbrev Frame := Nat

/-- Opaque face descriptor handle returned by the FaceLocator collaborator. -/
abbrev Face := Nat

/-- Cache key of the reference-face cache:
`(target path, reference frame index, reference face position)`. -/
abbrev CacheKey := Option MediaPath × Nat × Int

/-- Observable events: every collaborator call made by the preview pipeline,
plus the display push and process termination.  `predictFrame`/
`locateReferenceFace` carry `Option Frame` because the Python code passes the
raw fetch result (which is `None` when the fetch failed) straight to the
collaborator. -/
inductive Ev where
  | fetchFrame (path : MediaPath) (idx : Nat)
  | frameTotal (path : MediaPath)
  | predictFrame (frame : Option Frame)
  | locateSourceFace (frame : Frame)
  | locateReferenceFace (frame : Option Frame) (position : Int)
  | procFrame (sourceFace referenceFace : Option Face) (input : Frame)
  | clearPredictor
  | display (frame : Frame)
  | sysExit
  deriving DecidableEq, Repr

/-- The external collaborators consumed by the pipeline (spec section 6).
`get_video_frame` returns `none` when the fetch fails (roop.capturer returns
`None` when `capture.read()` produces no frame); `get_one_face` returns `none`
when no face is found; `processors` resolves the enabled processor names to
their `process_frame` functions. -/
structure Env where
  get_video_frame : MediaPath → Nat → Option Frame
  get_video_frame_total : MediaPath → Int
  imread : MediaPath → Frame
  get_one_face : Frame → Int → Option Face
  predict_frame : Frame → Bool
  processors : List Nat → List (Option Face → Option Face → Frame → Frame)
  is_image : MediaPath → Bool
  is_video : MediaPath → Bool

/-- The mutable state the source touches: the roop.globals selection fields,
the single-slot reference-face cache, and the preview widgets' observable
state (dialog visibility, slider, displayed image, status text). -/
structure AppState where
  source_path : Option MediaPath
  target_path : Option MediaPath
  reference_frame_number : Nat
  reference_face_position : Int
  frame_processors : List Nat
  face_reference : Option (CacheKey × Option Face)
  preview_visible : Bool
  dialog_open : Bool
  slider_value : Int
  slider_max : Int
  slider_visible : Bool
  preview_shown : Option Frame
  status : Option Nat
  deriving DecidableEq, Repr

/-- The key the reference-face cache entry is tied to in the current state. -/
def current_key (s : AppState) : CacheKey :=
  (s.target_path, s.reference_frame_number, s.reference_face_position)

/-- Modelled from the spec: roop.face_reference (imported by the source but
not part of the reviewed file).  Spec section 4.2 describes the
ReferenceFaceCache as a single-slot cache tied to the
`(targetPath, referenceFrameIndex, facePosition)` triple whose `get` returns
`Miss` unless the stored key exactly matches.  The call sites pass no key, so
the key is taken from the current selection state; a `Miss` and a stored
"no face found" both reach the caller as a falsy value (Python `None`). -/
def get_face_reference (s : AppState) : Option Face :=
  match s.face_reference with
  | some (k, v) => if k = current_key s then v else none
  | none => none

/-- Modelled from the spec: `put` of roop.face_reference stores the descriptor
(present or absent) keyed by the current triple, overwriting any entry. -/
def set_face_reference (face : Option Face) (s : AppState) : AppState :=
  { s with face_reference := some (current_key s, face) }

/-- Modelled from the spec: `invalidate` of roop.face_reference empties the
single slot. -/
def clear_face_reference (s : AppState) : AppState :=
  { s with face_reference := none }

/-- Outcome of one `update_preview` invocation: `ok` (display updated),
`skipped` (guard failed: source or target unset, silent no-op), `exited`
(`sys.exit()` ran: the process terminated), `exn` (an unhandled exception was
raised by a collaborator that received a failed frame fetch). -/
inductive RenderResult where
  | ok
  | skipped
  | exited
  | exn
  deriving DecidableEq, Repr

/-- Result of a pipeline operation: outcome, post-state and event trace. -/
structure RenderOut where
  result : RenderResult
  state : AppState
  events : List Ev
  deriving DecidableEq, Repr

/-- The processor loop of `update_preview` (ui_flet.py lines 412-417):
`for frame_processor in ...: temp_frame = frame_processor.process_frame(
source_face, reference_face, temp_frame)`.  Returns the final frame and the
trace of processor invocations (each recording the faces and input frame it
was handed). -/
def run_chain (procs : List (Option Face → Option Face → Frame → Frame))
    (source_face reference_face : Option Face) (frame : Frame) :
    Frame × List Ev :=
  match procs with
  | [] => (frame, [])
  | p :: rest =>
    let r := run_chain rest source_face reference_face (p source_face reference_face frame)
    (r.1, Ev.procFrame source_face reference_face frame :: r.2)

/-- The processor chain of the current state applied to a frame, with its
trace: `run_chain` over the modules resolved from the enabled names
(`get_frame_processors_modules(roop.globals.frame_processors)`). -/
def chain_out (env : Env) (s : AppState)
    (source_face reference_face : Option Face) (temp_frame : Frame) :
    Frame × List Ev :=
  run_chain (env.processors s.frame_processors) source_face reference_face temp_frame

/-- Tail of `update_preview` after the reference face is resolved: run the
processor chain on the fetched frame and push the result to the preview image
(ui_flet.py lines 412-426; the PIL resize / base64 encoding is display
plumbing and is abstracted to storing the final frame). -/
def finish_render (env : Env) (s : AppState)
    (source_face reference_face : Option Face) (temp_frame : Frame)
    (evs : List Ev) : RenderOut :=
  ⟨RenderResult.ok,
    { s with preview_shown := some (chain_out env s source_face reference_face temp_frame).1 },
    evs ++ (chain_out env s source_face reference_face temp_frame).2
      ++ [Ev.display (chain_out env s source_face reference_face temp_frame).1]⟩

/-- `update_preview(frame_number)` (ui_flet.py lines 396-426).  Guarded on
both paths being set; fetches the frame, runs the content predictor (calling
`sys.exit()` when it flags the frame), re-resolves the source face every
render, resolves the reference face through the cache (`if not
get_face_reference()`), runs the processor chain and updates the displayed
image.  A failed fetch produces `None`, which the code passes straight to the
next collaborator; that collaborator raises, modelled as the `exn` outcome
with the state as of that point. -/
def update_preview (env : Env) (s : AppState) (frame_number : Nat) : RenderOut :=
  match s.source_path, s.target_path with
  | some sp, some tp =>
    match env.get_video_frame tp frame_number with
    | none =>
      ⟨RenderResult.exn, s, [Ev.fetchFrame tp frame_number, Ev.predictFrame none]⟩
    | some temp_frame =>
      if env.predict_frame temp_frame then
        ⟨RenderResult.exited, s,
          [Ev.fetchFrame tp frame_number, Ev.predictFrame (some temp_frame), Ev.sysExit]⟩
      else
        match get_face_reference s with
        | none =>
          match env.get_video_frame tp s.reference_frame_number with
          | none =>
            ⟨RenderResult.exn, s,
              [Ev.fetchFrame tp frame_number, Ev.predictFrame (some temp_frame),
                Ev.locateSourceFace (env.imread sp),
                Ev.fetchFrame tp s.reference_frame_number,
                Ev.locateReferenceFace none s.reference_face_position]⟩
          | some reference_frame =>
            finish_render env
              (set_face_reference
                (env.get_one_face reference_frame s.reference_face_position) s)
              (env.get_one_face (env.imread sp) 0)
              (env.get_one_face reference_frame s.reference_face_position) temp_frame
              [Ev.fetchFrame tp frame_number, Ev.predictFrame (some temp_frame),
                Ev.locateSourceFace (env.imread sp),
                Ev.fetchFrame tp s.reference_frame_number,
                Ev.locateReferenceFace (some reference_frame) s.reference_face_position]
        | some reference_face =>
          finish_render env s (env.get_one_face (env.imread sp) 0) (some reference_face)
            temp_frame
            [Ev.fetchFrame tp frame_number, Ev.predictFrame (some temp_frame),
              Ev.locateSourceFace (env.imread sp)]
  | _, _ => ⟨RenderResult.skipped, s, []⟩

/-- `select_source_path(source_path)` (ui_flet.py lines 284-296): sets the
source path when it is an image, clears it otherwise; never touches the
reference cache or the frame indices (thumbnail rendering omitted as UI
plumbing). -/
def select_source_path (env : Env) (s : AppState) (source_path : Option MediaPath) :
    AppState :=
  match source_path with
  | some p =>
    if env.is_image p then { s with source_path := some p }
    else { s with source_path := none }
  | none => { s with source_path := none }

/-- `select_target_path(target_path)` (ui_flet.py lines 298-316): always calls
`clear_face_reference()` first, then sets the target path when it is an image
or a video and clears it otherwise (thumbnail rendering omitted as UI
plumbing).  Does not touch `reference_frame_number` or the slider. -/
def select_target_path (env : Env) (s : AppState) (target_path : Option MediaPath) :
    AppState :=
  let s0 := clear_face_reference s
  match target_path with
  | some p =>
    if env.is_image p then { s0 with target_path := some p }
    else if env.is_video p then { s0 with target_path := some p }
    else { s0 with target_path := none }
  | none => { s0 with target_path := none }

/-- `update_status(text)` (ui_flet.py lines 278-282): the only reporting
mechanism of the module; writes the status text. -/
def update_status (s : AppState) (text : Nat) : AppState :=
  { s with status := some text }

/-- `on_preview_dismiss` (ui_flet.py lines 274-276): marks the preview
inactive and clears the content predictor (roop.predictor, a collaborator
with no pipeline-visible state; the call is recorded as an event). -/
def on_preview_dismiss (s : AppState) : AppState × List Ev :=
  ({ s with preview_visible := false }, [Ev.clearPredictor])

/-- `init_preview` (ui_flet.py lines 381-394): configures the slider from the
target's frame count (the dialog title is display-only and omitted). -/
def init_preview (env : Env) (s : AppState) : AppState × List Ev :=
  match s.target_path with
  | some tp =>
    if env.is_image tp then ({ s with slider_visible := false }, [])
    else if env.is_video tp then
      let total := env.get_video_frame_total tp
      if 0 < total then
        ({ s with slider_max := total,
                  slider_value := (s.reference_frame_number : Int),
                  slider_visible := true }, [Ev.frameTotal tp])
      else ({ s with slider_visible := false }, [Ev.frameTotal tp])
    else (s, [])
  | none => (s, [])

/-- Result tag of `toggle_preview`: which branch ran.  `notReady` is the
fall-through when the preview is closed and a path is unset (the Python
`if`/`elif` has no `else`). -/
inductive ToggleResult where
  | closedPreview
  | openedPreview
  | abortedOpen
  | notReady
  deriving DecidableEq, Repr

/-- `toggle_preview` (ui_flet.py lines 365-379).  Open preview: closes it and
clears the predictor.  Closed preview with both paths set: `init_preview`,
`update_preview(reference_frame_number)`, then the dialog is opened — unless
the render raised or exited, in which case the lines after it never run.
Closed preview with a path unset: nothing happens. -/
def toggle_preview (env : Env) (s : AppState) : ToggleResult × AppState × List Ev :=
  if s.preview_visible then
    (ToggleResult.closedPreview,
      { s with dialog_open := false, preview_visible := false }, [Ev.clearPredictor])
  else
    match s.source_path, s.target_path with
    | some _, some _ =>
      let ip := init_preview env s
      let r := update_preview env ip.1 ip.1.reference_frame_number
      match r.result with
      | RenderResult.exn => (ToggleResult.abortedOpen, r.state, ip.2 ++ r.events)
      | RenderResult.exited => (ToggleResult.abortedOpen, r.state, ip.2 ++ r.events)
      | _ =>
        (ToggleResult.openedPreview,
          { r.state with dialog_open := true, preview_visible := true }, ip.2 ++ r.events)
    | _, _ => (ToggleResult.notReady, s, [])

/-- `on_slider_change` (ui_flet.py lines 269-272): the slider widget has
already moved to `value`; the handler stores `int(value)` into
`roop.globals.reference_frame_number` and renders that frame. -/
def on_slider_change (env : Env) (s : AppState) (value : Int) : RenderOut :=
  let frame_number := value.toNat
  update_preview env
    { s with slider_value := value, reference_frame_number := frame_number } frame_number

/-- `update_face_reference(steps)` (ui_flet.py lines 435-440): clears the
cache, nudges the face position, re-reads the reference frame index from the
slider and re-renders. -/
def update_face_reference (env : Env) (s : AppState) (steps : Int) : RenderOut :=
  let s0 := clear_face_reference s
  let reference_frame_number := s0.slider_value.toNat
  let s1 := { s0 with reference_face_position := s0.reference_face_position + steps,
                      reference_frame_number := reference_frame_number }
  update_preview env s1 reference_frame_number

/-- `update_frame(steps)` (ui_flet.py lines 442-445): nudges the slider by
`steps`, clamped into `[0, slider.max]` by `max(0, min(frame_number,
slider.max))`, and renders the clamped frame. -/
def update_frame (env : Env) (s : AppState) (steps : Int) : RenderOut :=
  let frame_number := s.slider_value + steps
  let clamped := max 0 (min frame_number s.slider_max)
  update_preview env { s with slider_value := clamped } clamped.toNat

/-- Recognizer for reference-face FaceLocator invocations in a trace. -/
def isRefLookup : Ev → Bool
  | Ev.locateReferenceFace _ _ => true
  | _ => false

/-- Recognizer for processor invocations handed exactly the given pair of
face descriptors. -/
def isProcWith (source_face reference_face : Option Face) : Ev → Bool
  | Ev.procFrame a b _ => a == source_face && b == reference_face
  | _ => false

/-- Number of reference-face FaceLocator invocations in a trace. -/
def refLookups (evs : List Ev) : Nat :=
  evs.countP isRefLookup

/-- Concrete collaborator environment used on witnesses and counterexamples:
even path handles are images, odd ones videos; frame `100 + i` lives at index
`i`; every frame contains a face; the predictor never flags. -/
def baseEnv : Env where
  get_video_frame := fun _ i => some (100 + i)
  get_video_frame_total := fun _ => 100
  imread := fun p => p
  get_one_face := fun f _ => some (f + 1)
  predict_frame := fun _ => false
  processors := fun names => names.map (fun k => fun _ _ fr => fr + k)
  is_image := fun p => p % 2 == 0
  is_video := fun p => p % 2 != 0

/-- Environment whose content predictor flags every frame. -/
def envFlagged : Env :=
  { baseEnv with predict_frame := fun _ => true }

/-- Environment whose FaceLocator never finds a face. -/
def envNoFace : Env :=
  { baseEnv with get_one_face := fun _ _ => none }

/-- Environment whose FrameSource fails every fetch. -/
def envNoFetch : Env :=
  { baseEnv with get_video_frame := fun _ _ => none }

/-- Baseline state: source image 2 and target video 3 selected, empty cache,
preview closed, slider over 100 frames. -/
def st0 : AppState where
  source_path := some 2
  target_path := some 3
  reference_frame_number := 0
  reference_face_position := 0
  frame_processors := []
  face_reference := none
  preview_visible := false
  dialog_open := false
  slider_value := 0
  slider_max := 100
  slider_visible := true
  preview_shown := none
  status := none

/-- State scrubbed to frame 5. -/
def stRef5 : AppState :=
  { st0 with reference_frame_number := 5, slider_value := 5 }

/-- State holding a cached descriptor whose key matches the current triple. -/
def stHit : AppState :=
  { st0 with face_reference := some ((some 3, 0, 0), some 42) }

/-- State holding a cached descriptor stored under reference frame 0 after
the slider moved the reference frame index to 7 (stale key). -/
def stStale : AppState :=
  { st0 with face_reference := some ((some 3, 0, 0), some 42),
             reference_frame_number := 7 }

/-- State with the preview dialog open. -/
def stOpen : AppState :=
  { st0 with preview_visible := true, dialog_open := true }

/-- State with no source selected (preview not ready). -/
def stNoSource : AppState :=
  { st0 with source_path := none }

/-! Helper lemmas about the processor chain and `update_preview`. -/

theorem run_chain_foldl (sfa rfa : Option Face) :
    ∀ (qs : List (Option Face → Option Face → Frame → Frame)) (fr : Frame),
      (run_chain qs sfa rfa fr).1 = qs.foldl (fun g p => p sfa rfa g) fr := by
  intro qs
  induction qs with
  | nil => intro fr; rfl
  | cons p rest ih => intro fr; simp [run_chain, ih]

theorem run_chain_all_proc (sfa rfa : Option Face) :
    ∀ (qs : List (Option Face → Option Face → Frame → Frame)) (fr : Frame),
      ((run_chain qs sfa rfa fr).2).all (isProcWith sfa rfa) = true := by
  intro qs
  induction qs with
  | nil => intro fr; rfl
  | cons p rest ih => intro fr; simp [run_chain, isProcWith, ih]

theorem run_chain_no_ref_lookup
    (qs : List (Option Face → Option Face → Frame → Frame))
    (sfa rfa : Option Face) (fr : Frame) :
    ((run_chain qs sfa rfa fr).2).countP isRefLookup = 0 := by
  induction qs generalizing fr with
  | nil => rfl
  | cons p rest ih => simp [run_chain, List.countP_cons, isRefLookup, ih]

theorem chain_out_no_ref_lookup (env : Env) (s : AppState)
    (sfa rfa : Option Face) (fr : Frame) :
    ((chain_out env s sfa rfa fr).2).countP isRefLookup = 0 :=
  run_chain_no_ref_lookup (env.processors s.frame_processors) sfa rfa fr

theorem get_face_reference_ignores_display (s : AppState) (sh : Option Frame) :
    get_face_reference { s with preview_shown := sh } = get_face_reference s :=
  rfl

theorem update_preview_state_shape (env : Env) (s : AppState) (n : Nat) :
    ∃ fr sh, (update_preview env s n).state
      = { s with face_reference := fr, preview_shown := sh } := by
  unfold update_preview finish_render set_face_reference
  repeat' split
  all_goals exact ⟨_, _, rfl⟩

theorem update_preview_keeps_slider (env : Env) (s : AppState) (n : Nat) :
    (update_preview env s n).state.slider_value = s.slider_value
    ∧ (update_preview env s n).state.slider_max = s.slider_max := by
  obtain ⟨fr, sh, h⟩ := update_preview_state_shape env s n
  rw [h]
  exact ⟨rfl, rfl⟩

theorem update_preview_keeps_selection (env : Env) (s : AppState) (n : Nat) :
    (update_preview env s n).state.source_path = s.source_path
    ∧ (update_preview env s n).state.target_path = s.target_path
    ∧ (update_preview env s n).state.reference_frame_number = s.reference_frame_number
    ∧ (update_preview env s n).state.reference_face_position = s.reference_face_position
    ∧ (update_preview env s n).state.frame_processors = s.frame_processors
    ∧ (update_preview env s n).state.status = s.status := by
  obtain ⟨fr, sh, h⟩ := update_preview_state_shape env s n
  rw [h]
  exact ⟨rfl, rfl, rfl, rfl, rfl, rfl⟩

theorem update_preview_lookups_le_one (env : Env) (s : AppState) (n : Nat) :
    refLookups (update_preview env s n).events ≤ 1 := by
  cases hsp : s.source_path with
  | none => simp [update_preview, refLookups, hsp]
  | some sp =>
    cases htp : s.target_path with
    | none => simp [update_preview, refLookups, hsp, htp]
    | some tp =>
      cases hf : env.get_video_frame tp n with
      | none => simp [update_preview, refLookups, hsp, htp, hf, isRefLookup]
      | some temp_frame =>
        cases hpred : env.predict_frame temp_frame with
        | true => simp [update_preview, refLookups, hsp, htp, hf, hpred, isRefLookup]
        | false =>
          cases hgr : get_face_reference s with
          | some reference_face =>
            simp [update_preview, finish_render, refLookups, hsp, htp, hf, hpred, hgr,
              isRefLookup, List.countP_append, List.countP_cons, chain_out_no_ref_lookup]
          | none =>
            cases hrf : env.get_video_frame tp s.reference_frame_number with
            | none =>
              simp [update_preview, refLookups, hsp, htp, hf, hpred, hgr, hrf,
                isRefLookup, List.countP_cons]
            | some reference_frame =>
              simp [update_preview, finish_render, refLookups, hsp, htp, hf, hpred, hgr,
                hrf, isRefLookup, List.countP_append, List.countP_cons,
                chain_out_no_ref_lookup]

theorem update_preview_cache_hit (env : Env) (s : AppState) (n : Nat) (f : Face)
    (h : get_face_reference s = some f) :
    refLookups (update_preview env s n).events = 0 := by
  cases hsp : s.source_path with
  | none => simp [update_preview, refLookups, hsp]
  | some sp =>
    cases htp : s.target_path with
    | none => simp [update_preview, refLookups, hsp, htp]
    | some tp =>
      cases hf : env.get_video_frame tp n with
      | none => simp [update_preview, refLookups, hsp, htp, hf, isRefLookup]
      | some temp_frame =>
        cases hpred : env.predict_frame temp_frame with
        | true => simp [update_preview, refLookups, hsp, htp, hf, hpred, isRefLookup]
        | false =>
          simp [update_preview, finish_render, refLookups, hsp, htp, hf, hpred, h,
            isRefLookup, List.countP_append, List.countP_cons, chain_out_no_ref_lookup]

theorem update_preview_cache_miss (env : Env) (s : AppState) (n : Nat)
    (sp tp : MediaPath) (f : Frame)
    (hsp : s.source_path = some sp) (htp : s.target_path = some tp)
    (hmiss : get_face_reference s = none)
    (hf : env.get_video_frame tp n = some f) (hp : env.predict_frame f = false) :
    Ev.fetchFrame tp s.reference_frame_number ∈ (update_preview env s n).events
    ∧ refLookups (update_preview env s n).events = 1 := by
  cases hrf : env.get_video_frame tp s.reference_frame_number with
  | none =>
    constructor
    · simp [update_preview, hsp, htp, hf, hp, hmiss, hrf]
    · simp [update_preview, refLookups, hsp, htp, hf, hp, hmiss, hrf, isRefLookup,
        List.countP_cons]
  | some reference_frame =>
    constructor
    · simp [update_preview, finish_render, hsp, htp, hf, hp, hmiss, hrf]
    · simp [update_preview, finish_render, refLookups, hsp, htp, hf, hp, hmiss, hrf,
        isRefLookup, List.countP_append, List.countP_cons, chain_out_no_ref_lookup]

theorem select_target_shape (env : Env) (s : AppState) (p : Option MediaPath) :
    ∃ t, select_target_path env s p
      = { s with face_reference := none, target_path := t } := by
  unfold select_target_path clear_face_reference
  rcases p with _ | q
  · exact ⟨none, rfl⟩
  · cases h1 : env.is_image q with
    | true => exact ⟨some q, by simp [h1]⟩
    | false =>
      cases h2 : env.is_video q with
      | true => exact ⟨some q, by simp [h1, h2]⟩
      | false => exact ⟨none, by simp [h1, h2]⟩

theorem update_frame_slider_state (env : Env) (s : AppState) (steps : Int) :
    (update_frame env s steps).state.slider_value
        = max 0 (min (s.slider_value + steps) s.slider_max)
    ∧ (update_frame env s steps).state.slider_max = s.slider_max := by
  simp only [update_frame]
  exact update_preview_keeps_slider env
    { s with slider_value := max 0 (min (s.slider_value + steps) s.slider_max) }
    (max 0 (min (s.slider_value + steps) s.slider_max)).toNat

theorem nudges_stay_in_range (env : Env) (l : List Int) :
    ∀ s : AppState, 0 ≤ s.slider_value → s.slider_value ≤ s.slider_max →
      0 ≤ (l.foldl (fun st d => (update_frame env st d).state) s).slider_value
      ∧ (l.foldl (fun st d => (update_frame env st d).state) s).slider_value
          ≤ s.slider_max := by
  induction l with
  | nil => intro s h1 h2; exact ⟨h1, h2⟩
  | cons d rest ih =>
    intro s h1 h2
    obtain ⟨ha, hb⟩ := update_frame_slider_state env s d
    have hmax : (0:Int) ≤ s.slider_max := le_trans h1 h2
    have h3 : 0 ≤ (update_frame env s d).state.slider_value := by rw [ha]; omega
    have h4 : (update_frame env s d).state.slider_value
        ≤ (update_frame env s d).state.slider_max := by rw [ha, hb]; omega
    have := ih ((update_frame env s d).state) h3 h4
    simpa [hb] using this

/-! Claim theorems. -/

/-- C1 (counterexample): the render operation can terminate the process: with
a collaborator whose content predictor flags the fetched frame,
`update_preview` reaches `sys.exit()`. -/
theorem render_terminates_on_flagged_frame :
    (update_preview envFlagged st0 0).result = RenderResult.exited := by
  decide

/-- C1 (amended): `update_preview` terminates the process exactly when both
paths are set, the frame fetch succeeds, and the content predictor flags the
fetched frame (`if predict_frame(temp_frame): sys.exit()`); in every other
situation the render completes, silently no-ops, or aborts without
terminating the process. -/
theorem render_exited_iff_predictor_flagged (env : Env) (s : AppState) (n : Nat) :
    (update_preview env s n).result = RenderResult.exited
      ↔ ∃ sp tp f, s.source_path = some sp ∧ s.target_path = some tp
          ∧ env.get_video_frame tp n = some f ∧ env.predict_frame f = true := by
  cases hsp : s.source_path with
  | none => simp [update_preview, hsp]
  | some sp =>
    cases htp : s.target_path with
    | none => simp [update_preview, hsp, htp]
    | some tp =>
      cases hf : env.get_video_frame tp n with
      | none => simp [update_preview, hsp, htp, hf]
      | some temp_frame =>
        cases hpred : env.predict_frame temp_frame with
        | true => simp [update_preview, hsp, htp, hf, hpred]
        | false =>
          cases hgr : get_face_reference s with
          | some reference_face =>
            simp [update_preview, finish_render, hsp, htp, hf, hpred, hgr]
          | none =>
            cases hrf : env.get_video_frame tp s.reference_frame_number with
            | none => simp [update_preview, hsp, htp, hf, hpred, hgr, hrf]
            | some reference_frame =>
              simp [update_preview, finish_render, hsp, htp, hf, hpred, hgr, hrf]

/-- C2 (counterexample): `select_target_path` does not reset the frame
indices: with the reference frame index and slider at 5, selecting target 3
leaves both at 5, not 0. -/
theorem select_target_keeps_frame_indices :
    (select_target_path baseEnv stRef5 (some 3)).reference_frame_number ≠ 0
    ∧ (select_target_path baseEnv stRef5 (some 3)).slider_value ≠ 0 := by
  decide

/-- C2 (amended): `select_target_path` always invalidates the reference-face
cache, whatever the path argument (including re-selecting the current
target), so the next render that reaches reference resolution performs
exactly one fresh FaceLocator lookup; but it leaves `currentFrameIndex`
(slider value) and `referenceFrameIndex` unchanged rather than resetting them
to 0. -/
theorem select_target_always_invalidates (env : Env) (s : AppState)
    (p : Option MediaPath) (n : Nat) (sp tp : MediaPath) (f : Frame)
    (hsp : (select_target_path env s p).source_path = some sp)
    (htp : (select_target_path env s p).target_path = some tp)
    (hf : env.get_video_frame tp n = some f)
    (hp : env.predict_frame f = false) :
    (select_target_path env s p).face_reference = none
    ∧ (select_target_path env s p).reference_frame_number = s.reference_frame_number
    ∧ (select_target_path env s p).slider_value = s.slider_value
    ∧ refLookups (update_preview env (select_target_path env s p) n).events = 1 := by
  obtain ⟨t, hshape⟩ := select_target_shape env s p
  have hmiss : get_face_reference (select_target_path env s p) = none := by
    rw [hshape]
    simp [get_face_reference]
  refine ⟨by rw [hshape], by rw [hshape], by rw [hshape],
    (update_preview_cache_miss env _ n sp tp f hsp htp hmiss hf hp).2⟩

/-- C3 (counterexample): when the reference lookup finds no face, the stored
absent descriptor reaches the call site `if not get_face_reference()` as a
falsy value, so two consecutive renders with unchanged selection invoke
FaceLocator for the reference face twice, not at most once. -/
theorem reference_lookup_repeated_when_no_face :
    refLookups (update_preview envNoFace st0 0).events
      + refLookups
          (update_preview envNoFace (update_preview envNoFace st0 0).state 0).events
      = 2 := by
  decide

/-- C3 (amended): two consecutive renders with unchanged selection invoke
FaceLocator for the reference face at most once total, provided the first
render leaves the cache holding a present descriptor (a face was found); a
stored "no face found" is indistinguishable from an empty cache at the call
site and causes a repeat lookup. -/
theorem reference_lookup_once_when_face_found (env : Env) (s : AppState)
    (n1 n2 : Nat)
    (h : (get_face_reference ((update_preview env s n1).state)).isSome = true) :
    refLookups (update_preview env s n1).events
      + refLookups
          (update_preview env (update_preview env s n1).state n2).events ≤ 1 := by
  obtain ⟨f, hf⟩ := Option.isSome_iff_exists.mp h
  have h2 := update_preview_cache_hit env ((update_preview env s n1).state) n2 f hf
  have h1 := update_preview_lookups_le_one env s n1
  omega

/-- C4: when the stored cache key differs from the current
`(targetPath, referenceFrameIndex, facePositionOffset)` triple in any field,
a render that reaches reference resolution treats the cache as a miss and
performs a fresh frame fetch plus exactly one fresh FaceLocator lookup for
the reference face. -/
theorem stale_key_forces_fresh_lookup (env : Env) (s : AppState) (n : Nat)
    (k : CacheKey) (v : Option Face) (sp tp : MediaPath) (f : Frame)
    (href : s.face_reference = some (k, v)) (hk : k ≠ current_key s)
    (hsp : s.source_path = some sp) (htp : s.target_path = some tp)
    (hf : env.get_video_frame tp n = some f) (hp : env.predict_frame f = false) :
    Ev.fetchFrame tp s.reference_frame_number ∈ (update_preview env s n).events
    ∧ refLookups (update_preview env s n).events = 1 := by
  have hmiss : get_face_reference s = none := by
    simp [get_face_reference, href, hk]
  exact update_preview_cache_miss env s n sp tp f hsp htp hmiss hf hp

/-- C4 (witness): with a descriptor cached under reference frame 0 after the
reference frame index moved to 7, the render at frame 7 fetches the
reference frame afresh and performs exactly one reference FaceLocator
lookup. -/
theorem stale_key_forces_fresh_lookup_witness :
    Ev.fetchFrame 3 stStale.reference_frame_number
        ∈ (update_preview baseEnv stStale 7).events
    ∧ refLookups (update_preview baseEnv stStale 7).events = 1 :=
  stale_key_forces_fresh_lookup baseEnv stStale 7 (some 3, 0, 0) (some 42) 2 3 107
    (by decide) (by decide) (by decide) (by decide) (by decide) (by decide)

/-- C2 (witness): concrete instance of `select_target_always_invalidates` at
target 3 from the state scrubbed to frame 5. -/
theorem select_target_always_invalidates_witness :
    (select_target_path baseEnv stRef5 (some 3)).face_reference = none
    ∧ (select_target_path baseEnv stRef5 (some 3)).reference_frame_number
        = stRef5.reference_frame_number
    ∧ (select_target_path baseEnv stRef5 (some 3)).slider_value = stRef5.slider_value
    ∧ refLookups
        (update_preview baseEnv (select_target_path baseEnv stRef5 (some 3)) 5).events
      = 1 :=
  select_target_always_invalidates baseEnv stRef5 (some 3) 5 2 3 105
    (by decide) (by decide) (by decide) (by decide)

/-- C3 (witness): concrete instance of `reference_lookup_once_when_face_found`
with a collaborator that finds a face. -/
theorem reference_lookup_once_when_face_found_witness :
    (get_face_reference ((update_preview baseEnv st0 0).state)).isSome = true
    ∧ refLookups (update_preview baseEnv st0 0).events
      + refLookups
          (update_preview baseEnv (update_preview baseEnv st0 0).state 0).events
      ≤ 1 :=
  ⟨by decide, reference_lookup_once_when_face_found baseEnv st0 0 0 (by decide)⟩

/-- C5 (counterexample): dismissing the preview dialog does not clear the
reference-face cache: from a state holding a cached descriptor, the cache
still holds it afterwards. -/
theorem dismiss_preserves_face_reference :
    (on_preview_dismiss stHit).1.face_reference ≠ none := by
  decide

/-- C5 (amended): closing the preview (dialog dismissal or toggling it off
while open) marks the session inactive and clears the content predictor —
not the reference-face cache, which is left untouched — and dismissal is
idempotent: dismissing an already-dismissed session leaves the state
unchanged. -/
theorem close_preview_clears_predictor_only (env : Env) (s : AppState)
    (h : s.preview_visible = true) :
    (on_preview_dismiss s).1.preview_visible = false
    ∧ (on_preview_dismiss s).1.face_reference = s.face_reference
    ∧ (on_preview_dismiss s).2 = [Ev.clearPredictor]
    ∧ (on_preview_dismiss (on_preview_dismiss s).1).1 = (on_preview_dismiss s).1
    ∧ toggle_preview env s
        = (ToggleResult.closedPreview,
            { s with dialog_open := false, preview_visible := false },
            [Ev.clearPredictor]) := by
  refine ⟨rfl, rfl, rfl, rfl, ?_⟩
  simp [toggle_preview, h]

/-- C5 (witness): concrete instance of `close_preview_clears_predictor_only`
from the open-preview state. -/
theorem close_preview_clears_predictor_only_witness :
    stOpen.preview_visible = true
    ∧ ((on_preview_dismiss stOpen).1.preview_visible = false
      ∧ (on_preview_dismiss stOpen).1.face_reference = stOpen.face_reference
      ∧ (on_preview_dismiss stOpen).2 = [Ev.clearPredictor]
      ∧ (on_preview_dismiss (on_preview_dismiss stOpen).1).1
          = (on_preview_dismiss stOpen).1
      ∧ toggle_preview baseEnv stOpen
          = (ToggleResult.closedPreview,
              { stOpen with dialog_open := false, preview_visible := false },
              [Ev.clearPredictor])) :=
  ⟨by decide, close_preview_clears_predictor_only baseEnv stOpen (by decide)⟩

/-- C6 (counterexample): when the frame fetch fails, `update_preview` does
not abort with a report: the failed fetch value is handed to the content
predictor (the `predictFrame none` event), and no report is made — the state,
including the status text, is bit-for-bit unchanged. -/
theorem fetch_failure_feeds_predictor_unreported :
    (update_preview envNoFetch st0 0).events
      = [Ev.fetchFrame 3 0, Ev.predictFrame none]
    ∧ (update_preview envNoFetch st0 0).state = st0 := by
  decide

/-- C6 (amended): when the frame fetch fails, the render is aborted only by
the unhandled exception the predictor raises on the failed fetch value; the
displayed preview image (and all other state) stays unchanged, but no failure
report is issued — the trace shows the fetch and the doomed predictor call
and nothing else. -/
theorem fetch_failure_aborts_without_report (env : Env) (s : AppState) (n : Nat)
    (sp tp : MediaPath)
    (hsp : s.source_path = some sp) (htp : s.target_path = some tp)
    (hf : env.get_video_frame tp n = none) :
    (update_preview env s n).result = RenderResult.exn
    ∧ (update_preview env s n).state = s
    ∧ (update_preview env s n).events = [Ev.fetchFrame tp n, Ev.predictFrame none] := by
  refine ⟨?_, ?_, ?_⟩ <;> simp [update_preview, hsp, htp, hf]

/-- C6 (witness): concrete instance of `fetch_failure_aborts_without_report`
with a collaborator whose every fetch fails. -/
theorem fetch_failure_aborts_without_report_witness :
    (update_preview envNoFetch st0 0).result = RenderResult.exn
    ∧ (update_preview envNoFetch st0 0).state = st0
    ∧ (update_preview envNoFetch st0 0).events
        = [Ev.fetchFrame 3 0, Ev.predictFrame none] :=
  fetch_failure_aborts_without_report envNoFetch st0 0 2 3
    (by decide) (by decide) (by decide)

/-- C7: opening the preview while the source or the target path is unset is a
silent not-ready no-op: the state is returned untouched and the event trace
is empty, so no FrameSource, FaceLocator or processor call occurs and the
selection state and cache are unchanged. -/
theorem open_preview_not_ready_silent_noop (env : Env) (s : AppState)
    (hclosed : s.preview_visible = false)
    (hunset : s.source_path = none ∨ s.target_path = none) :
    toggle_preview env s = (ToggleResult.notReady, s, ([] : List Ev)) := by
  rcases hunset with h | h
  · cases h2 : s.target_path with
    | none => simp [toggle_preview, hclosed, h, h2]
    | some b => simp [toggle_preview, hclosed, h, h2]
  · cases h1 : s.source_path with
    | none => simp [toggle_preview, hclosed, h, h1]
    | some a => simp [toggle_preview, hclosed, h, h1]

/-- C7 (witness): concrete instance of `open_preview_not_ready_silent_noop`
with the source unset. -/
theorem open_preview_not_ready_silent_noop_witness :
    stNoSource.preview_visible = false
    ∧ stNoSource.source_path = none
    ∧ toggle_preview baseEnv stNoSource
        = (ToggleResult.notReady, stNoSource, ([] : List Ev)) :=
  ⟨by decide, by decide,
    open_preview_not_ready_silent_noop baseEnv stNoSource (by decide)
      (Or.inl (by decide))⟩

/-- C8: `update_frame` clamps the requested index into `[0, slider.max]`
(`max(0, min(frame_number, slider.max))`), renders exactly the clamped frame,
and under any further sequence of nudges the slider value never leaves
`[0, slider.max]`. -/
theorem update_frame_clamps (env : Env) (s : AppState) (steps : Int)
    (hmax : 0 ≤ s.slider_max) :
    (update_frame env s steps).state.slider_value
        = max 0 (min (s.slider_value + steps) s.slider_max)
    ∧ 0 ≤ (update_frame env s steps).state.slider_value
    ∧ (update_frame env s steps).state.slider_value ≤ s.slider_max
    ∧ update_frame env s steps
        = update_preview env
            { s with slider_value := max 0 (min (s.slider_value + steps) s.slider_max) }
            (max 0 (min (s.slider_value + steps) s.slider_max)).toNat
    ∧ ∀ l : List Int,
        0 ≤ (l.foldl (fun st d => (update_frame env st d).state)
            ((update_frame env s steps).state)).slider_value
        ∧ (l.foldl (fun st d => (update_frame env st d).state)
            ((update_frame env s steps).state)).slider_value ≤ s.slider_max := by
  obtain ⟨ha, hb⟩ := update_frame_slider_state env s steps
  have h1 : 0 ≤ (update_frame env s steps).state.slider_value := by rw [ha]; omega
  have h2 : (update_frame env s steps).state.slider_value ≤ s.slider_max := by
    rw [ha]; omega
  refine ⟨ha, h1, h2, rfl, ?_⟩
  intro l
  have h3 : (update_frame env s steps).state.slider_value
      ≤ (update_frame env s steps).state.slider_max := by rw [hb]; exact h2
  have h4 := nudges_stay_in_range env l ((update_frame env s steps).state) h1 h3
  exact ⟨h4.1, hb ▸ h4.2⟩

/-- C8 (witness): seeking by 250 on the 100-frame slider yields slider value
100, the clamp of 250. -/
theorem update_frame_clamps_witness :
    (0:Int) ≤ st0.slider_max
    ∧ (update_frame baseEnv st0 250).state.slider_value = 100 := by
  have h := update_frame_clamps baseEnv st0 250 (by decide)
  exact ⟨by decide, by rw [h.1]; decide⟩

/-- C9: the processor chain is applied in declared order: for a chain
starting `A, B, ...` the second processor event records exactly `A`'s output
as `B`'s input frame, the chain result is the left fold of the processors
over the frame (each output feeding the next input), and every processor
event in any chain trace carries the identical source/reference face pair. -/
theorem chain_applies_in_order
    (A B : Option Face → Option Face → Frame → Frame)
    (ps : List (Option Face → Option Face → Frame → Frame))
    (sfa rfa : Option Face) (fr : Frame) :
    (run_chain (A :: B :: ps) sfa rfa fr).2
      = Ev.procFrame sfa rfa fr
          :: Ev.procFrame sfa rfa (A sfa rfa fr)
          :: (run_chain ps sfa rfa (B sfa rfa (A sfa rfa fr))).2
    ∧ (∀ qs fr2, (run_chain qs sfa rfa fr2).1
        = qs.foldl (fun g p => p sfa rfa g) fr2)
    ∧ (∀ qs fr2, ((run_chain qs sfa rfa fr2).2).all (isProcWith sfa rfa) = true) := by
  refine ⟨by simp [run_chain], ?_, ?_⟩
  · intro qs fr2
    exact run_chain_foldl sfa rfa qs fr2
  · intro qs fr2
    exact run_chain_all_proc sfa rfa qs fr2

/-- C10: a slider-driven seek stores the new frame index into the global
reference frame number as a side effect and renders that frame; source path,
target path, face position and the processor list are untouched. -/
theorem slider_seek_sets_reference_frame (env : Env) (s : AppState) (v : Int)
    (hv : 0 ≤ v) :
    ((on_slider_change env s v).state.reference_frame_number : Int) = v
    ∧ (on_slider_change env s v).state.source_path = s.source_path
    ∧ (on_slider_change env s v).state.target_path = s.target_path
    ∧ (on_slider_change env s v).state.reference_face_position
        = s.reference_face_position
    ∧ (on_slider_change env s v).state.frame_processors = s.frame_processors
    ∧ on_slider_change env s v
        = update_preview env
            { s with slider_value := v, reference_frame_number := v.toNat }
            v.toNat := by
  have hk := update_preview_keeps_selection env
    { s with slider_value := v, reference_frame_number := v.toNat } v.toNat
  refine ⟨?_, hk.1, hk.2.1, hk.2.2.2.1, hk.2.2.2.2.1, rfl⟩
  rw [show (on_slider_change env s v).state.reference_frame_number = v.toNat
    from hk.2.2.1]
  exact Int.toNat_of_nonneg hv

/-- C10 (witness): concrete instance of `slider_seek_sets_reference_frame` at
slider value 7. -/
theorem slider_seek_sets_reference_frame_witness :
    (0:Int) ≤ 7
    ∧ ((on_slider_change baseEnv st0 7).state.reference_frame_number : Int) = 7
    ∧ (on_slider_change baseEnv st0 7).state.target_path = st0.target_path := by
  have h := slider_seek_sets_reference_frame baseEnv st0 7 (by decide)
  exact ⟨by decide, h.1, h.2.2.1⟩

end RoopUI
